import Mathlib

/-!
# Verification of the rag-guardian evaluation engine

Shallow embedding of the core of the `rag_guardian` repository
(metric-scoring algorithms, evaluation orchestration, and the resilient
HTTP adapter) together with theorems settling the specification claims.

Modelling conventions:
* Python floats are modelled as rationals (`ℚ`); the comparisons and
  arithmetic used by the code (`+`, `*`, `/`, `min`, `max`, `<`, `>=`)
  are exact on the values the code manipulates.
* Python strings are modelled as Lean `String`; tokenisation and
  trimming are implemented over the underlying character list, matching
  CPython semantics for ASCII input (`str.split()`, `str.strip()`,
  `str.lower()`, `len`, and the substring test `in`).
* Python `dict`s keyed by metric name are modelled as association
  lists; `set`s of tokens are modelled as deduplicated lists.
* Raising an exception is modelled with `Except`; the `details`
  dictionaries (`Dict[str, Any]`) attached to scores are diagnostic
  only and are not modelled.
-/

namespace RagGuardian

/-! ## String helpers (CPython semantics for ASCII input) -/

/-- `str.split()` with no separator: split on runs of whitespace,
discarding empty fragments.  Worker over the character list. -/
def wordsAux : List Char → List Char → List String
  | [], acc => if acc.isEmpty then [] else [String.mk acc.reverse]
  | c :: cs, acc =>
      if c.isWhitespace then
        if acc.isEmpty then wordsAux cs []
        else String.mk acc.reverse :: wordsAux cs []
      else wordsAux cs (c :: acc)

/-- Python `s.split()` (whitespace split, no empty fragments). -/
def pyWords (s : String) : List String := wordsAux s.data []

/-- Python `s.strip()` over the character list. -/
def stripChars (l : List Char) : List Char :=
  ((l.dropWhile Char.isWhitespace).reverse.dropWhile Char.isWhitespace).reverse

/-- Python `s.strip()`. -/
def pyStrip (s : String) : String := String.mk (stripChars s.data)

/-- Python `len(s)` (number of characters). -/
def pyLen (s : String) : Nat := s.data.length

/-- Whether `needle` occurs contiguously inside `hay`
(Python `needle in hay` on strings), by naive search. -/
def isSubChars : List Char → List Char → Bool
  | needle, [] => needle.isEmpty
  | needle, c :: cs => needle.isPrefixOf (c :: cs) || isSubChars needle cs

/-- Python substring test `needle in hay`. -/
def pySubstr (needle hay : String) : Bool := isSubChars needle.data hay.data

/-- Python `s.lower()` (per-character ASCII case folding, the
character-list form of `String.toLower`). -/
def pyLower (s : String) : String := String.mk (s.data.map Char.toLower)

/-- Python `w.isalnum()`: non-empty and every character alphanumeric. -/
def pyIsAlnum (w : String) : Bool := !w.data.isEmpty && w.data.all Char.isAlphanum

/-- Truthiness of a Python optional string (`None` and `""` are falsy). -/
def truthyStr : Option String → Bool
  | none => false
  | some s => !(s = "")

/-- Truthiness of a Python optional list (`None` and `[]` are falsy). -/
def truthyList : Option (List String) → Bool
  | none => false
  | some l => !l.isEmpty

/-- Python `min(a, b)` on floats (kernel-reducible form). -/
def pyMin2 (a b : ℚ) : ℚ := if a ≤ b then a else b

/-- Python `max(a, b)` on floats (kernel-reducible form). -/
def pyMax2 (a b : ℚ) : ℚ := if b ≤ a then a else b

/-- Python `max` over a non-empty list of floats (`0` on the
unreachable empty list). -/
def pyMax : List ℚ → ℚ
  | [] => 0
  | a :: rest => rest.foldl pyMax2 a

/-! ## Exceptions -/

/-- Retryable transport-level errors distinguished by the retry loop
(`httpx.TimeoutException`, `httpx.ConnectError`, `httpx.RequestError`).
The payload tags distinct concrete error values. -/
inductive TransportErr where
  | timeout (id : Nat)
  | connect (id : Nat)
  | request (id : Nat)
deriving DecidableEq, Repr

/-- Structured payload of an `IntegrationError` (the code formats these
into message strings; the structure is modelled, not the prose). -/
inductive IntErrInfo where
  | retriesExhausted (attempts : Nat) (last : Option TransportErr)
  | httpStatus (endpoint : String) (code : Nat)
  | bothFailed (origCode : Nat) (fallback : IntErrInfo)
  | unexpected (desc : String)
deriving DecidableEq, Repr

/-- Exceptions surfaced by the embedded code paths. -/
inductive PyErr where
  | valueError (msg : String)
  | integrationError (info : IntErrInfo)
deriving DecidableEq, Repr

/-! ## Core data types (`rag_guardian/core/types.py`) -/

/-- `TestCase` (the `Any`-typed `metadata` map is not modelled). -/
structure TestCase where
  question : String
  expected_answer : Option String := none
  expected_contexts : Option (List String) := none
  acceptable_answers : Option (List String) := none
  required_contexts : Option (List String) := none
  forbidden_contexts : Option (List String) := none
deriving Repr

/-- `RAGOutput` (optional latency diagnostics are not modelled). -/
structure RAGOutput where
  answer : String
  contexts : List String
  question : String
deriving Repr

/-- `RAGOutput.__post_init__`: answer and contexts must be non-empty. -/
def mkRAGOutput (question answer : String) (contexts : List String) :
    Except PyErr RAGOutput :=
  if answer = "" then .error (.valueError "Answer cannot be empty")
  else if contexts.isEmpty then .error (.valueError "Contexts cannot be empty")
  else .ok { answer := answer, contexts := contexts, question := question }

/-- `MetricScore` (the diagnostic `details` map is not modelled). -/
structure MetricScore where
  metric_name : String
  value : ℚ
  passed : Bool
  threshold : Option ℚ := none
deriving DecidableEq, Repr

/-- `MetricScore.__post_init__`: constructing a score validates
`0.0 <= value <= 1.0` and raises `ValueError` otherwise. -/
def mkMetricScore (name : String) (value : ℚ) (passed : Bool)
    (threshold : Option ℚ) : Except PyErr MetricScore :=
  if 0 ≤ value ∧ value ≤ 1 then
    .ok { metric_name := name, value := value, passed := passed,
          threshold := threshold }
  else .error (.valueError "Metric value must be between 0 and 1")

/-! ## Answer correctness metric
(`rag_guardian/metrics/answer_correctness.py`) -/

namespace AnswerCorrectness

/-- `AnswerCorrectnessMetric._compute_similarity`. -/
def computeSimilarity (generated expected : String) : ℚ :=
  if generated = expected then 1
  else
    let generated_tokens := (pyWords generated).dedup
    let expected_tokens := (pyWords expected).dedup
    if expected_tokens.isEmpty then 0
    else
      let intersection := generated_tokens.filter (expected_tokens.contains ·)
      let union := (generated_tokens ++ expected_tokens).dedup
      if union.isEmpty then 0
      else
        let jaccard : ℚ := (intersection.length : ℚ) / (union.length : ℚ)
        let lenSim : ℚ :=
          pyMin2 (pyLen generated : ℚ) (pyLen expected : ℚ) /
            pyMax2 (pyLen generated : ℚ) (pyLen expected : ℚ)
        pyMin2 (7/10 * jaccard + 3/10 * lenSim) 1

/-- `AnswerCorrectnessMetric.compute`.  Note the guard order: a falsy
`expected_answer` short-circuits to `1.0` before the
`acceptable_answers` list is consulted. -/
def compute (tc : TestCase) (out : RAGOutput) : ℚ :=
  if !truthyStr tc.expected_answer then 1
  else
    let generated := pyStrip (pyLower out.answer)
    let expected := pyStrip (pyLower (tc.expected_answer.getD ""))
    if truthyList tc.acceptable_answers then
      pyMax (((tc.acceptable_answers.getD []).map
        (fun answer => computeSimilarity generated (pyStrip (pyLower answer)))))
    else computeSimilarity generated expected

end AnswerCorrectness

/-! ## Faithfulness metric (`rag_guardian/metrics/faithfulness.py`) -/

namespace Faithfulness

/-- Sentence-terminal delimiters of the `[.!?]+` pattern. -/
def isPunct (c : Char) : Bool := c = '.' || c = '!' || c = '?'

mutual

/-- `re.split(r"[.!?]+", ·)`: worker accumulating the current fragment
(in reverse). -/
def splitGo : List Char → List Char → List String
  | [], acc => [String.mk acc.reverse]
  | c :: cs, acc =>
      if isPunct c then String.mk acc.reverse :: splitSkip cs
      else splitGo cs (c :: acc)

/-- `re.split(r"[.!?]+", ·)`: worker consuming a run of delimiters. -/
def splitSkip : List Char → List String
  | [] => [""]
  | c :: cs => if isPunct c then splitSkip cs else splitGo cs [c]

end

/-- Python `re.split(r"[.!?]+", answer)`: fragments between maximal
runs of sentence-terminal punctuation. -/
def splitSentences (answer : String) : List String := splitGo answer.data []

/-- `FaithfulnessMetric._extract_claims`: trimmed fragments that are
non-empty and strictly longer than 10 characters. -/
def extractClaims (answer : String) : List String :=
  (splitSentences answer).filterMap fun s =>
    let t := pyStrip s
    if !(t = "") && pyLen t > 10 then some t else none

/-- The fraction of the claim's word set found in a context's word set
(`len(overlap) / len(claim_words)` in `_is_claim_supported`). -/
def overlapFrac (claim context : String) : ℚ :=
  let claim_words := (pyWords (pyLower claim)).dedup
  let context_words := (pyWords (pyLower context)).dedup
  ((claim_words.filter (context_words.contains ·)).length : ℚ) /
    (claim_words.length : ℚ)

/-- `FaithfulnessMetric._is_claim_supported`: some context covers more
than 60% of the claim's word set. -/
def isClaimSupported (claim : String) (contexts : List String) : Bool :=
  contexts.any fun context => decide (overlapFrac claim context > 3/5)

/-- `FaithfulnessMetric.compute`. -/
def compute (_tc : TestCase) (out : RAGOutput) : ℚ :=
  let claims := extractClaims out.answer
  if claims.isEmpty then 1
  else ((claims.countP (isClaimSupported · out.contexts)) : ℚ) /
    (claims.length : ℚ)

end Faithfulness

/-! ## Context relevancy metric
(`rag_guardian/metrics/context_relevancy.py`) -/

namespace ContextRelevancy

/-- The question's keyword set: lowercased whitespace tokens that are
alphanumeric and longer than 3 characters
(`set(w for w in question_lower.split() if len(w) > 3 and w.isalnum())`). -/
def questionWords (question : String) : List String :=
  ((pyWords (pyLower question)).filter
    (fun w => pyLen w > 3 && pyIsAlnum w)).dedup

/-- `ContextRelevancyMetric._compute_relevancy`. -/
def computeRelevancy (question context : String) : ℚ :=
  let qws := questionWords question
  if qws.isEmpty then 1/2
  else
    let matchCount := qws.countP (fun word => pySubstr word (pyLower context))
    let coverage : ℚ := (matchCount : ℚ) / (qws.length : ℚ)
    let context_length := (pyWords context).length
    let length_penalty : ℚ := if context_length < 200 then 1 else 9/10
    pyMin2 (coverage * length_penalty) 1

/-- `ContextRelevancyMetric.compute`: arithmetic mean over contexts,
`0.0` when no contexts were retrieved. -/
def compute (tc : TestCase) (out : RAGOutput) : ℚ :=
  if out.contexts.isEmpty then 0
  else
    ((out.contexts.map (computeRelevancy tc.question ·)).sum) /
      (out.contexts.length : ℚ)

end ContextRelevancy

/-! ## Groundedness metric (`rag_guardian/metrics/groundedness.py`) -/

namespace Groundedness

/-- The fixed stop-word list of `GroundednessMetric._extract_key_terms`. -/
def stopWords : List String :=
  ["the", "a", "an", "and", "or", "but", "in", "on", "at", "to", "for",
   "of", "with", "by", "from", "is", "are", "was", "were", "be", "been",
   "being", "have", "has", "had", "do", "does", "did", "will", "would",
   "could", "should", "may", "might", "can", "this", "that", "these",
   "those"]

/-- `GroundednessMetric._extract_key_terms`: lowercased whitespace
tokens of all contexts, keeping words longer than 3 characters that are
not stop words; a set (modelled as a deduplicated list). -/
def extractKeyTerms (contexts : List String) : List String :=
  ((contexts.map fun context =>
      (pyWords (pyLower context)).filter
        (fun w => pyLen w > 3 && !stopWords.contains w)).flatten).dedup

/-- `GroundednessMetric.compute`. -/
def compute (_tc : TestCase) (out : RAGOutput) : ℚ :=
  let context_terms := extractKeyTerms out.contexts
  if context_terms.isEmpty then 1
  else
    let answer_lower := pyLower out.answer
    ((context_terms.countP (fun term => pySubstr term answer_lower)) : ℚ) /
      (context_terms.length : ℚ)

end Groundedness

/-! ## Metric abstraction and orchestration
(`rag_guardian/metrics/base.py`, `rag_guardian/core/pipeline.py`) -/

/-- A configured metric: name, threshold, required flag and scoring
algorithm (`BaseMetric` subclass instance). -/
structure Metric where
  name : String
  threshold : ℚ
  required : Bool
  compute : TestCase → RAGOutput → ℚ

/-- `BaseMetric.evaluate`: compute the value, apply the threshold
policy (`passed = value >= threshold`), and build the `MetricScore`
(whose constructor validates the range). -/
def Metric.evaluate (m : Metric) (tc : TestCase) (out : RAGOutput) :
    Except PyErr MetricScore :=
  let value := m.compute tc out
  mkMetricScore m.name value (decide (m.threshold ≤ value)) (some m.threshold)

/-- Floor of a rational as an integer (`num.fdiv den`). -/
def ratFloor (q : ℚ) : ℤ := q.num.fdiv q.den

/-- Python `format(x, ".2f")` for `x ≥ 0`: round to cents, ties to
even, then render with two decimals. -/
def fmt2 (q : ℚ) : String :=
  let scaled := q * 100
  let n := ratFloor scaled
  let r := scaled - (n : ℚ)
  let cents : ℤ :=
    if r < 1/2 then n
    else if 1/2 < r then n + 1
    else if n % 2 = 0 then n else n + 1
  let c := cents.toNat
  toString (c / 100) ++ "." ++
    (if c % 100 < 10 then "0" ++ toString (c % 100) else toString (c % 100))

/-- Smallest number of decimal digits that renders `q` exactly
(capped at 17). -/
def decExp (q : ℚ) : Nat :=
  (((List.range 18).find? fun k => (q * (10 : ℚ) ^ k).den = 1).getD 17)

/-- Python `str(x)` for a non-negative float whose value is an exact
short decimal (the configuration thresholds): shortest decimal form,
with at least one digit after the point. -/
def pyFloatStr (q : ℚ) : String :=
  let k := if decExp q = 0 then 1 else decExp q
  let m := (q * (10 : ℚ) ^ k).num.toNat
  let frac := toString (m % 10 ^ k)
  toString (m / 10 ^ k) ++ "." ++
    String.mk (List.replicate (k - frac.data.length) '0' ++ frac.data)

/-- Python `str` of an optional float. -/
def pyOptFloatStr : Option ℚ → String
  | none => "None"
  | some q => pyFloatStr q

/-- The failure reason appended by `EvaluationPipeline.evaluate_test_case`
for a failing required metric:
the f-string interpolating the metric name, the value with two
decimals, and the threshold. -/
def failureReason (name : String) (value : ℚ) (threshold : Option ℚ) :
    String :=
  name ++ " failed: " ++ fmt2 value ++ " < " ++ pyOptFloatStr threshold

/-- `TestCaseResult` from `core/types.py`. -/
structure TestCaseResult where
  test_case : TestCase
  rag_output : RAGOutput
  metric_scores : List (String × MetricScore)
  passed : Bool
  failure_reasons : List String

/-- `EvaluationResult` from `core/types.py` (summary as an ordered
name→float map). -/
structure EvaluationResult where
  test_case_results : List TestCaseResult
  passed : Bool
  summary : List (String × ℚ)

/-- The metric loop of `EvaluationPipeline.evaluate_test_case`:
collect each metric's score and, for failing required metrics, the
formatted failure reason, in iteration order. -/
def evalMetrics : List Metric → TestCase → RAGOutput →
    Except PyErr (List (String × MetricScore) × List String)
  | [], _, _ => .ok ([], [])
  | m :: rest, tc, out => do
      let score ← m.evaluate tc out
      let (scores, reasons) ← evalMetrics rest tc out
      let reasons' :=
        if !score.passed && m.required then
          failureReason m.name score.value score.threshold :: reasons
        else reasons
      .ok ((m.name, score) :: scores, reasons')

/-- `EvaluationPipeline.evaluate_test_case`: execute the adapter, run
every metric, and assemble the per-case result
(`passed = len(failure_reasons) == 0`). -/
def evaluateTestCase (adapter : String → Except PyErr RAGOutput)
    (metrics : List Metric) (tc : TestCase) : Except PyErr TestCaseResult := do
  let rag_output ← adapter tc.question
  let (metric_scores, failure_reasons) ← evalMetrics metrics tc rag_output
  .ok { test_case := tc, rag_output := rag_output,
        metric_scores := metric_scores,
        passed := decide (failure_reasons.length = 0),
        failure_reasons := failure_reasons }

/-- `EvaluationPipeline._calculate_summary`. -/
def calculateSummary (metrics : List Metric)
    (results : List TestCaseResult) : List (String × ℚ) :=
  if results.isEmpty then []
  else
    let avgs := metrics.filterMap fun m =>
      let scores := results.filterMap fun r =>
        (r.metric_scores.lookup m.name).map (·.value)
      if scores.isEmpty then none
      else some ("avg_" ++ m.name, scores.sum / (scores.length : ℚ))
    let passed_count := results.countP (·.passed)
    avgs ++
      [("pass_rate", (passed_count : ℚ) / (results.length : ℚ)),
       ("total_tests", (results.length : ℚ)),
       ("passed_tests", (passed_count : ℚ)),
       ("failed_tests", ((results.length - passed_count : ℕ) : ℚ))]

/-- `EvaluationPipeline.evaluate_dataset` on an already-loaded list of
test cases: raise on an empty dataset, evaluate each case catching any
per-case exception (the case is skipped), aggregate. -/
def evaluateDataset (adapter : String → Except PyErr RAGOutput)
    (metrics : List Metric) (test_cases : List TestCase) :
    Except PyErr EvaluationResult :=
  if test_cases.isEmpty then .error (.valueError "No test cases found")
  else
    let results := test_cases.filterMap fun tc =>
      (evaluateTestCase adapter metrics tc).toOption
    .ok { test_case_results := results,
          passed := results.all (·.passed),
          summary := calculateSummary metrics results }

/-! ## Resilient HTTP adapter (`rag_guardian/integrations/custom.py`,
`rag_guardian/integrations/base.py`)

A network call is modelled as a function from the 0-based attempt
number to its outcome: success with a parsed response, a retryable
transport error, or an HTTP status error raised by
`raise_for_status()` after a completed request. -/

/-- Outcome of one invocation of the wrapped request function. -/
inductive CallResult (α : Type) where
  | ok (a : α)
  | err (e : TransportErr)
  | status (code : Nat)

/-- Terminal outcome of `CustomHTTPAdapter._retry_request`: success,
an uncaught `HTTPStatusError` propagating out of the loop, or all
retries exhausted (the loop raises `IntegrationError` wrapping the
last transport error). -/
inductive RetryOutcome (α : Type) where
  | ok (a : α)
  | statusErr (code : Nat)
  | exhausted (last : Option TransportErr)

/-- Observable trace of one `_retry_request` run: how many times the
request function was invoked, the backoff sleeps performed (in
seconds, in order), and the terminal outcome. -/
structure RetryTrace (α : Type) where
  attempts : Nat
  sleeps : List Nat
  outcome : RetryOutcome α

/-- The body of `_retry_request`'s `for attempt in range(max_retries)`
loop, over the remaining attempt indices.  A transport error is caught
and recorded; a backoff sleep of `2 ** attempt` seconds happens when
further attempts remain (`attempt < max_retries - 1`). -/
def retryGo (func : Nat → CallResult α) (maxRetries : Nat) :
    List Nat → Option TransportErr → RetryTrace α
  | [], last => ⟨0, [], .exhausted last⟩
  | attempt :: rest, _ =>
      match func attempt with
      | .ok v => ⟨1, [], .ok v⟩
      | .status code => ⟨1, [], .statusErr code⟩
      | .err e =>
          let sleeps := if attempt < maxRetries - 1 then [2 ^ attempt] else []
          let t := retryGo func maxRetries rest (some e)
          ⟨t.attempts + 1, sleeps ++ t.sleeps, t.outcome⟩

/-- `CustomHTTPAdapter._retry_request`. -/
def retryRequest (func : Nat → CallResult α) (maxRetries : Nat) :
    RetryTrace α :=
  retryGo func maxRetries (List.range maxRetries) none

/-- Parsed body of a combined `/rag` response, with the
`data.get("answer", "")` / `data.get("contexts", [])` defaults already
applied. -/
structure RagResponse where
  answer : String
  contexts : List String

/-- `CustomHTTPAdapter.retrieve`: retried `/retrieve` call; an HTTP
status error becomes an `IntegrationError`, exhausted retries re-raise
the loop's `IntegrationError`. -/
def retrieveHTTP (maxRetries : Nat)
    (retrieveF : Nat → CallResult (List String)) :
    Except PyErr (List String) :=
  match (retryRequest retrieveF maxRetries).outcome with
  | .ok contexts => .ok contexts
  | .statusErr code => .error (.integrationError (.httpStatus "/retrieve" code))
  | .exhausted last =>
      .error (.integrationError (.retriesExhausted maxRetries last))

/-- `CustomHTTPAdapter.generate`: retried `/generate` call. -/
def generateHTTP (maxRetries : Nat) (generateF : Nat → CallResult String) :
    Except PyErr String :=
  match (retryRequest generateF maxRetries).outcome with
  | .ok answer => .ok answer
  | .statusErr code => .error (.integrationError (.httpStatus "/generate" code))
  | .exhausted last =>
      .error (.integrationError (.retriesExhausted maxRetries last))

/-- `BaseRAGAdapter.execute` as inherited by `CustomHTTPAdapter`:
retrieve, then generate, then build the validated `RAGOutput`. -/
def baseExecuteHTTP (maxRetries : Nat)
    (retrieveF : Nat → CallResult (List String))
    (generateF : Nat → CallResult String) (query : String) :
    Except PyErr RAGOutput := do
  let contexts ← retrieveHTTP maxRetries retrieveF
  let answer ← generateHTTP maxRetries generateF
  mkRAGOutput query answer contexts

/-- `CustomHTTPAdapter.execute`: try the combined `/rag` endpoint with
the retry loop; on an `HTTPStatusError` with code 404 fall back to the
two-call composition (wrapping a fallback `IntegrationError`); on any
other status code raise an `IntegrationError`; on exhausted retries
re-raise the loop's `IntegrationError`.  A validation error while
building the `RAGOutput` from the `/rag` response is caught by the
catch-all and wrapped as an unexpected-error `IntegrationError`. -/
def executeHTTP (maxRetries : Nat) (ragF : Nat → CallResult RagResponse)
    (retrieveF : Nat → CallResult (List String))
    (generateF : Nat → CallResult String) (query : String) :
    Except PyErr RAGOutput :=
  match (retryRequest ragF maxRetries).outcome with
  | .ok resp =>
      match mkRAGOutput query resp.answer resp.contexts with
      | .ok o => .ok o
      | .error _ =>
          .error (.integrationError (.unexpected "RAG output validation"))
  | .statusErr code =>
      if code = 404 then
        match baseExecuteHTTP maxRetries retrieveF generateF query with
        | .ok o => .ok o
        | .error (.integrationError info) =>
            .error (.integrationError (.bothFailed code info))
        | .error e => .error e
      else .error (.integrationError (.httpStatus "/rag" code))
  | .exhausted last =>
      .error (.integrationError (.retriesExhausted maxRetries last))

/-! ## Shared helper lemmas -/

/-- A count-over-length ratio of naturals is non-negative. -/
lemma ratio_nonneg (a b : ℕ) : (0 : ℚ) ≤ (a : ℚ) / (b : ℚ) := by
  positivity

/-- A count-over-length ratio of naturals is at most one when the
numerator is bounded by the denominator. -/
lemma ratio_le_one {a b : ℕ} (h : a ≤ b) : (a : ℚ) / (b : ℚ) ≤ 1 := by
  rcases Nat.eq_zero_or_pos b with hb | hb
  · subst hb
    simp
  · rw [div_le_one (by exact_mod_cast hb)]
    exact_mod_cast h

lemma pyMin2_le_right (a b : ℚ) : pyMin2 a b ≤ b := by
  unfold pyMin2
  split <;> simp_all

lemma pyMin2_nonneg {a b : ℚ} (ha : 0 ≤ a) (hb : 0 ≤ b) :
    0 ≤ pyMin2 a b := by
  unfold pyMin2
  split <;> assumption

/-! ## Claim C8: MetricScore range invariant -/

/-- C8: every `MetricScore` built by the validating constructor has
`0 ≤ value ≤ 1`; construction succeeds exactly when the requested value
is inside the closed unit interval, and fails with a validation error
otherwise. -/
theorem metric_score_range (name : String) (value : ℚ) (passed : Bool)
    (threshold : Option ℚ) :
    ((∃ s, mkMetricScore name value passed threshold = .ok s) ↔
      (0 ≤ value ∧ value ≤ 1)) ∧
    (∀ s, mkMetricScore name value passed threshold = .ok s →
      s.value = value ∧ 0 ≤ s.value ∧ s.value ≤ 1) ∧
    (¬(0 ≤ value ∧ value ≤ 1) →
      mkMetricScore name value passed threshold =
        .error (.valueError "Metric value must be between 0 and 1")) := by
  unfold mkMetricScore
  refine ⟨⟨fun ⟨s, hs⟩ => ?_, fun h => ?_⟩, fun s hs => ?_, fun h => ?_⟩
  · by_contra h
    rw [if_neg h] at hs
    exact Except.noConfusion hs
  · exact ⟨_, by rw [if_pos h]⟩
  · by_cases h : 0 ≤ value ∧ value ≤ 1
    · rw [if_pos h] at hs
      cases hs
      exact ⟨rfl, h.1, h.2⟩
    · rw [if_neg h] at hs
      exact Except.noConfusion hs
  · rw [if_neg h]

/-- C8 witness: a concrete in-range construction succeeds with the
requested value, and a concrete out-of-range construction fails. -/
theorem metric_score_range_witness :
    ((MetricScore.mk "m" (1/2) true (some (7/10))).value = 1/2 ∧
      0 ≤ (MetricScore.mk "m" (1/2) true (some (7/10))).value ∧
      (MetricScore.mk "m" (1/2) true (some (7/10))).value ≤ 1) ∧
    mkMetricScore "m" (3/2) true (some (7/10)) =
      .error (.valueError "Metric value must be between 0 and 1") :=
  ⟨(metric_score_range "m" (1/2) true (some (7/10))).2.1
      (MetricScore.mk "m" (1/2) true (some (7/10)))
      (by with_unfolding_all rfl),
   (metric_score_range "m" (3/2) true (some (7/10))).2.2 (by norm_num)⟩

/-! ## Claim C1: answer correctness and the acceptable-answers list -/

/-- Test case with an acceptable-answers list but no expected answer. -/
def tcNoExpected : TestCase :=
  { question := "q", expected_answer := none,
    acceptable_answers := some ["zzzz"] }

/-- A RAG output used to probe the answer-correctness metric. -/
def outHello : RAGOutput :=
  { answer := "hello", contexts := ["ctx"], question := "q" }

/-- C1 counterexample: with an acceptable-answers list present but the
expected answer absent, `compute` returns `1.0` without consulting the
list, while the maximum similarity over the candidates is `6/25`; the
claimed equality fails at this input. -/
theorem answer_correctness_acceptable_cex :
    AnswerCorrectness.compute tcNoExpected outHello = 1 ∧
    pyMax ((tcNoExpected.acceptable_answers.getD []).map fun answer =>
      AnswerCorrectness.computeSimilarity (pyStrip (pyLower outHello.answer))
        (pyStrip (pyLower answer))) = 6/25 ∧
    (1 : ℚ) ≠ 6/25 := by
  refine ⟨by with_unfolding_all decide, by with_unfolding_all decide,
    by norm_num⟩

/-- C1 (amended): the answer-correctness metric first checks the
expected answer: if it is absent (None or empty) the score is `1.0`
regardless of the acceptable-answers list.  Only when the expected
answer is present does a non-empty acceptable-answers list yield the
maximum similarity between the normalized generated answer and each
normalized candidate; with no (or an empty) acceptable-answers list
the generated answer is compared directly to the expected answer. -/
theorem answer_correctness_dispatch (tc : TestCase) (out : RAGOutput) :
    (truthyStr tc.expected_answer = false →
      AnswerCorrectness.compute tc out = 1) ∧
    (truthyStr tc.expected_answer = true →
      truthyList tc.acceptable_answers = true →
      AnswerCorrectness.compute tc out =
        pyMax ((tc.acceptable_answers.getD []).map fun answer =>
          AnswerCorrectness.computeSimilarity (pyStrip (pyLower out.answer))
            (pyStrip (pyLower answer)))) ∧
    (truthyStr tc.expected_answer = true →
      truthyList tc.acceptable_answers = false →
      AnswerCorrectness.compute tc out =
        AnswerCorrectness.computeSimilarity (pyStrip (pyLower out.answer))
          (pyStrip (pyLower (tc.expected_answer.getD "")))) := by
  unfold AnswerCorrectness.compute
  refine ⟨fun h => ?_, fun h hl => ?_, fun h hl => ?_⟩
  · rw [h]
    rfl
  · rw [h, hl]
    rfl
  · rw [h, hl]
    rfl

/-- C1 witness: concrete instances of all three dispatch branches. -/
theorem answer_correctness_dispatch_witness :
    AnswerCorrectness.compute tcNoExpected outHello = 1 ∧
    AnswerCorrectness.compute
      { question := "q", expected_answer := some "hello",
        acceptable_answers := some ["zzzz"] } outHello =
      pyMax (["zzzz"].map fun answer =>
        AnswerCorrectness.computeSimilarity (pyStrip (pyLower "hello"))
          (pyStrip (pyLower answer))) ∧
    AnswerCorrectness.compute
      { question := "q", expected_answer := some "hello" } outHello =
      AnswerCorrectness.computeSimilarity (pyStrip (pyLower "hello"))
        (pyStrip (pyLower "hello")) :=
  ⟨(answer_correctness_dispatch tcNoExpected outHello).1 (by decide),
   (answer_correctness_dispatch _ outHello).2.1 (by decide) (by decide),
   (answer_correctness_dispatch _ outHello).2.2 (by decide) (by decide)⟩

/-! ## Claim C3: context relevancy length penalty -/

/-- A question whose single keyword is `wxyz`. -/
def qBoundary : String := "wxyz"

/-- A context of exactly 200 whitespace-separated tokens containing
the keyword. -/
def ctxBoundary : String :=
  String.intercalate " " ("wxyz" :: List.replicate 199 "a")

set_option maxRecDepth 1000000 in
/-- C3 counterexample: on a context of exactly 200 tokens with full
keyword coverage, the code scores `9/10` (the length penalty fires at
exactly 200 tokens), while the claimed formula with penalty `1.0`
yields `1`. -/
theorem context_relevancy_boundary_cex :
    (pyWords ctxBoundary).length = 200 ∧
    ContextRelevancy.computeRelevancy qBoundary ctxBoundary = 9/10 ∧
    pyMin2 ((((ContextRelevancy.questionWords qBoundary).countP
        (fun w => pySubstr w (pyLower ctxBoundary)) : ℚ) /
      ((ContextRelevancy.questionWords qBoundary).length : ℚ)) * 1) 1 = 1 ∧
    (9/10 : ℚ) ≠ 1 := by
  have h1 : ContextRelevancy.questionWords qBoundary = ["wxyz"] := by
    with_unfolding_all decide
  have h2 : List.countP (fun w => pySubstr w (pyLower ctxBoundary))
      ["wxyz"] = 1 := by
    with_unfolding_all decide
  have h3 : (pyWords ctxBoundary).length = 200 := by
    with_unfolding_all decide
  refine ⟨h3, ?_, ?_, by norm_num⟩
  · unfold ContextRelevancy.computeRelevancy
    simp only [h1, h2, h3]
    norm_num [pyMin2]
  · simp only [h1, h2]
    norm_num [pyMin2]

/-- C3 (amended): for a question with at least one keyword, the
per-context score is `min(coverage × penalty, 1.0)` where `coverage`
is the fraction of distinct question keywords occurring as substrings
of the lowercased context, and the length penalty is `0.9` exactly
when the context has **at least** 200 whitespace-separated tokens
(so a context of exactly 200 tokens is penalised) and `1.0` below
200; the score always lies in `[0, 1]`. -/
theorem context_relevancy_per_context (question context : String)
    (h : ContextRelevancy.questionWords question ≠ []) :
    ContextRelevancy.computeRelevancy question context =
      pyMin2 ((((ContextRelevancy.questionWords question).countP
          (fun w => pySubstr w (pyLower context)) : ℚ) /
        ((ContextRelevancy.questionWords question).length : ℚ)) *
        (if 200 ≤ (pyWords context).length then 9/10 else 1)) 1 ∧
    0 ≤ ContextRelevancy.computeRelevancy question context ∧
    ContextRelevancy.computeRelevancy question context ≤ 1 := by
  have hne : (ContextRelevancy.questionWords question).isEmpty = false := by
    simpa [List.isEmpty_iff] using h
  have hpen : (if (pyWords context).length < 200 then (1 : ℚ) else 9/10) =
      (if 200 ≤ (pyWords context).length then (9/10 : ℚ) else 1) := by
    rcases Nat.lt_or_ge (pyWords context).length 200 with hlt | hge
    · rw [if_pos hlt, if_neg (by omega)]
    · rw [if_neg (by omega), if_pos hge]
  have heq : ContextRelevancy.computeRelevancy question context =
      pyMin2 ((((ContextRelevancy.questionWords question).countP
          (fun w => pySubstr w (pyLower context)) : ℚ) /
        ((ContextRelevancy.questionWords question).length : ℚ)) *
        (if 200 ≤ (pyWords context).length then 9/10 else 1)) 1 := by
    unfold ContextRelevancy.computeRelevancy
    simp only [hne, Bool.false_eq_true, if_false, hpen]
  refine ⟨heq, ?_, ?_⟩
  · rw [heq]
    apply pyMin2_nonneg _ zero_le_one
    apply mul_nonneg (ratio_nonneg _ _)
    split <;> norm_num
  · rw [heq]
    exact pyMin2_le_right _ _

/-- C3 witness: the amended per-context formula evaluated on a short
context containing the keyword. -/
theorem context_relevancy_per_context_witness :
    ContextRelevancy.computeRelevancy qBoundary "wxyz here" =
      pyMin2 ((((ContextRelevancy.questionWords qBoundary).countP
          (fun w => pySubstr w (pyLower "wxyz here")) : ℚ) /
        ((ContextRelevancy.questionWords qBoundary).length : ℚ)) *
        (if 200 ≤ (pyWords "wxyz here").length then 9/10 else 1)) 1 ∧
    0 ≤ ContextRelevancy.computeRelevancy qBoundary "wxyz here" ∧
    ContextRelevancy.computeRelevancy qBoundary "wxyz here" ≤ 1 :=
  context_relevancy_per_context qBoundary "wxyz here"
    (by with_unfolding_all decide)

/-! ## Claim C4: faithfulness claim extraction -/

/-- C4 counterexample: the fragment `abcdefghij` has exactly 10
characters after trimming, appears among the split sentences, and is
discarded by claim extraction (the claim asserts it would be kept). -/
theorem faithfulness_ten_char_cex :
    "abcdefghij" ∈ Faithfulness.splitSentences "abcdefghij." ∧
    pyLen (pyStrip "abcdefghij") = 10 ∧
    Faithfulness.extractClaims "abcdefghij." = [] := by
  refine ⟨by with_unfolding_all decide, by with_unfolding_all decide,
    by with_unfolding_all decide⟩

/-- C4 (amended): claim extraction splits the answer on runs of the
sentence-terminal characters `.`, `!`, `?` and keeps exactly the
trimmed fragments whose trimmed length strictly exceeds 10 characters
(a trimmed fragment of exactly 10 characters is discarded); every kept
claim therefore has at least 11 characters. -/
theorem faithfulness_extract_claims (answer : String) :
    Faithfulness.extractClaims answer =
      ((Faithfulness.splitSentences answer).map pyStrip).filter
        (fun t => decide (10 < pyLen t)) ∧
    ∀ c ∈ Faithfulness.extractClaims answer, 11 ≤ pyLen c := by
  have key : ∀ l : List String,
      l.filterMap (fun s =>
        let t := pyStrip s
        if !(t = "") && pyLen t > 10 then some t else none) =
      (l.map pyStrip).filter (fun t => decide (10 < pyLen t)) := by
    intro l
    induction l with
    | nil => rfl
    | cons a rest ih =>
        simp only [List.filterMap_cons, List.map_cons, List.filter_cons]
        by_cases h10 : 10 < pyLen (pyStrip a)
        · have hne : ¬(pyStrip a = "") := by
            intro he
            rw [he] at h10
            exact absurd h10 (by decide)
          simp [hne, h10]
          simpa using ih
        · simp [h10]
          simpa using ih
  constructor
  · exact key (Faithfulness.splitSentences answer)
  · intro c hc
    rw [show Faithfulness.extractClaims answer =
        ((Faithfulness.splitSentences answer).map pyStrip).filter
          (fun t => decide (10 < pyLen t)) from
      key (Faithfulness.splitSentences answer)] at hc
    have := (List.mem_filter.mp hc).2
    simp only [decide_eq_true_eq] at this
    omega

/-- C4 witness: an 11-character trimmed fragment is kept, and the
filter characterisation holds on a concrete answer. -/
theorem faithfulness_extract_claims_witness :
    Faithfulness.extractClaims "abcdefghijk. hi" =
      ((Faithfulness.splitSentences "abcdefghijk. hi").map pyStrip).filter
        (fun t => decide (10 < pyLen t)) ∧
    11 ≤ pyLen "abcdefghijk" :=
  ⟨(faithfulness_extract_claims "abcdefghijk. hi").1,
   (faithfulness_extract_claims "abcdefghijk. hi").2 "abcdefghijk"
     (by with_unfolding_all decide)⟩

/-! ## Claim C9: faithfulness score -/

/-- C9: the faithfulness score is `1.0` when no claims are extracted,
and otherwise the fraction of claims supported by some context; a
claim is supported exactly when a single retrieved context covers
strictly more than 60% of its word set; the score lies in `[0, 1]`. -/
theorem faithfulness_claim_support (tc : TestCase) (out : RAGOutput) :
    (Faithfulness.extractClaims out.answer = [] →
      Faithfulness.compute tc out = 1) ∧
    (Faithfulness.extractClaims out.answer ≠ [] →
      Faithfulness.compute tc out =
        ((Faithfulness.extractClaims out.answer).countP
          (Faithfulness.isClaimSupported · out.contexts) : ℚ) /
        ((Faithfulness.extractClaims out.answer).length : ℚ)) ∧
    (∀ claim, Faithfulness.isClaimSupported claim out.contexts = true ↔
      ∃ ctx ∈ out.contexts, Faithfulness.overlapFrac claim ctx > 3/5) ∧
    0 ≤ Faithfulness.compute tc out ∧ Faithfulness.compute tc out ≤ 1 := by
  have hsupport : ∀ claim,
      Faithfulness.isClaimSupported claim out.contexts = true ↔
      ∃ ctx ∈ out.contexts, Faithfulness.overlapFrac claim ctx > 3/5 := by
    intro claim
    unfold Faithfulness.isClaimSupported
    simp [List.any_eq_true]
  refine ⟨fun h => ?_, fun h => ?_, hsupport, ?_, ?_⟩
  · unfold Faithfulness.compute
    simp [h]
  · unfold Faithfulness.compute
    have hne : (Faithfulness.extractClaims out.answer).isEmpty = false := by
      simpa [List.isEmpty_iff] using h
    simp only [hne, Bool.false_eq_true, if_false]
  · unfold Faithfulness.compute
    by_cases h : (Faithfulness.extractClaims out.answer).isEmpty
    · simp only [h, if_true]
      norm_num
    · simp only [h, Bool.false_eq_true, if_false]
      exact ratio_nonneg _ _
  · unfold Faithfulness.compute
    by_cases h : (Faithfulness.extractClaims out.answer).isEmpty
    · simp only [h, if_true]
      norm_num
    · simp only [h, Bool.false_eq_true, if_false]
      exact ratio_le_one (List.countP_le_length _)

/-- Output whose answer yields one supported claim. -/
def outOneClaim : RAGOutput :=
  { answer := "aaaa bbbb cccc.", contexts := ["aaaa bbbb cccc dddd"],
    question := "q" }

/-- Output whose answer yields no claims. -/
def outNoClaim : RAGOutput :=
  { answer := "hi.", contexts := ["ctx"], question := "q" }

/-- C9 witness: the supported-ratio form on a one-claim output and the
`1.0` case on a claimless output. -/
theorem faithfulness_claim_support_witness :
    Faithfulness.compute { question := "q" } outOneClaim =
      ((Faithfulness.extractClaims outOneClaim.answer).countP
        (Faithfulness.isClaimSupported · outOneClaim.contexts) : ℚ) /
      ((Faithfulness.extractClaims outOneClaim.answer).length : ℚ) ∧
    Faithfulness.compute { question := "q" } outNoClaim = 1 :=
  ⟨(faithfulness_claim_support { question := "q" } outOneClaim).2.1
      (by with_unfolding_all decide),
   (faithfulness_claim_support { question := "q" } outNoClaim).1
      (by with_unfolding_all decide)⟩

/-! ## Claim C10: groundedness score -/

/-- C10: the groundedness key-term set collects, over all contexts,
the lowercased whitespace tokens longer than 3 characters that are not
stop words (without duplicates); the score is `1.0` when the set is
empty and otherwise the fraction of key terms occurring as substrings
of the lowercased answer; the score lies in `[0, 1]`. -/
theorem groundedness_key_term_share (tc : TestCase) (out : RAGOutput) :
    (Groundedness.extractKeyTerms out.contexts = [] →
      Groundedness.compute tc out = 1) ∧
    (Groundedness.extractKeyTerms out.contexts ≠ [] →
      Groundedness.compute tc out =
        ((Groundedness.extractKeyTerms out.contexts).countP
          (fun term => pySubstr term (pyLower out.answer)) : ℚ) /
        ((Groundedness.extractKeyTerms out.contexts).length : ℚ)) ∧
    (∀ t, t ∈ Groundedness.extractKeyTerms out.contexts ↔
      ((∃ ctx ∈ out.contexts, t ∈ pyWords (pyLower ctx)) ∧
        3 < pyLen t ∧ t ∉ Groundedness.stopWords)) ∧
    (Groundedness.extractKeyTerms out.contexts).Nodup ∧
    0 ≤ Groundedness.compute tc out ∧ Groundedness.compute tc out ≤ 1 := by
  have hmem : ∀ t, t ∈ Groundedness.extractKeyTerms out.contexts ↔
      ((∃ ctx ∈ out.contexts, t ∈ pyWords (pyLower ctx)) ∧
        3 < pyLen t ∧ t ∉ Groundedness.stopWords) := by
    intro t
    unfold Groundedness.extractKeyTerms
    simp only [List.mem_dedup, List.mem_flatten, List.mem_map,
      List.mem_filter]
    constructor
    · rintro ⟨l, ⟨ctx, hctx, rfl⟩, hmem⟩
      rcases List.mem_filter.mp hmem with ⟨hw, hcond⟩
      simp only [Bool.and_eq_true, decide_eq_true_eq, Bool.not_eq_true',
        gt_iff_lt] at hcond
      refine ⟨⟨ctx, hctx, hw⟩, hcond.1, fun hstop => ?_⟩
      have hc : Groundedness.stopWords.contains t = true :=
        List.elem_iff.mpr hstop
      rw [hcond.2] at hc
      exact Bool.false_ne_true hc
    · rintro ⟨⟨ctx, hctx, hw⟩, hlen, hstop⟩
      refine ⟨_, ⟨ctx, hctx, rfl⟩, List.mem_filter.mpr ⟨hw, ?_⟩⟩
      simp only [Bool.and_eq_true, decide_eq_true_eq, Bool.not_eq_true',
        gt_iff_lt]
      exact ⟨hlen, Bool.eq_false_iff.mpr
        (fun hc => hstop (List.elem_iff.mp hc))⟩
  refine ⟨fun h => ?_, fun h => ?_, hmem, ?_, ?_, ?_⟩
  · unfold Groundedness.compute
    simp [h]
  · unfold Groundedness.compute
    have hne : (Groundedness.extractKeyTerms out.contexts).isEmpty = false := by
      simpa [List.isEmpty_iff] using h
    simp only [hne, Bool.false_eq_true, if_false]
  · unfold Groundedness.extractKeyTerms
    exact List.nodup_dedup _
  · unfold Groundedness.compute
    by_cases h : (Groundedness.extractKeyTerms out.contexts).isEmpty
    · simp only [h, if_true]
      norm_num
    · simp only [h, Bool.false_eq_true, if_false]
      exact ratio_nonneg _ _
  · unfold Groundedness.compute
    by_cases h : (Groundedness.extractKeyTerms out.contexts).isEmpty
    · simp only [h, if_true]
      norm_num
    · simp only [h, Bool.false_eq_true, if_false]
      exact ratio_le_one (List.countP_le_length _)

/-- Output with contexts carrying key terms not used by the answer. -/
def outUngrounded : RAGOutput :=
  { answer := "nope", contexts := ["pricing information available"],
    question := "q" }

/-- Output with no extractable key terms (all context tokens short). -/
def outNoTerms : RAGOutput :=
  { answer := "nope", contexts := ["a b c"], question := "q" }

/-- C10 witness: the key-term ratio form on a term-bearing output and
the `1.0` case on an output without key terms. -/
theorem groundedness_key_term_share_witness :
    Groundedness.compute { question := "q" } outUngrounded =
      ((Groundedness.extractKeyTerms outUngrounded.contexts).countP
        (fun term => pySubstr term (pyLower outUngrounded.answer)) : ℚ) /
      ((Groundedness.extractKeyTerms outUngrounded.contexts).length : ℚ) ∧
    Groundedness.compute { question := "q" } outNoTerms = 1 :=
  ⟨(groundedness_key_term_share { question := "q" } outUngrounded).2.1
      (by with_unfolding_all decide),
   (groundedness_key_term_share { question := "q" } outNoTerms).1
      (by with_unfolding_all decide)⟩

/-! ## Claim C5: per-case failure reasons -/

lemma except_bind_ok {ε α β : Type} (a : α) (f : α → Except ε β) :
    (Except.ok a >>= f) = f a := rfl

/-- The metric loop characterised on metrics whose values are in
range: every metric contributes its score, and exactly the failing
required metrics contribute a formatted failure reason, in order. -/
lemma evalMetrics_ok (metrics : List Metric) (tc : TestCase)
    (out : RAGOutput)
    (h : ∀ m ∈ metrics, 0 ≤ m.compute tc out ∧ m.compute tc out ≤ 1) :
    evalMetrics metrics tc out = .ok
      (metrics.map fun m => (m.name, MetricScore.mk m.name (m.compute tc out)
          (decide (m.threshold ≤ m.compute tc out)) (some m.threshold)),
       (metrics.filter fun m =>
          !(decide (m.threshold ≤ m.compute tc out)) && m.required).map
        fun m => failureReason m.name (m.compute tc out) (some m.threshold)) := by
  induction metrics with
  | nil => rfl
  | cons m rest ih =>
      have hm := h m (List.mem_cons_self m rest)
      have hrest := ih fun x hx => h x (List.mem_cons_of_mem m hx)
      unfold evalMetrics
      rw [show m.evaluate tc out = .ok (MetricScore.mk m.name
            (m.compute tc out) (decide (m.threshold ≤ m.compute tc out))
            (some m.threshold)) from by
          unfold Metric.evaluate mkMetricScore
          rw [if_pos hm]]
      rw [hrest, except_bind_ok, except_bind_ok]
      rcases Bool.eq_false_or_eq_true m.required with hr | hr <;>
        by_cases hd : m.threshold ≤ m.compute tc out <;>
          simp [hd, hr, List.filter_cons]

/-- C5 (amended): when the adapter succeeds and every metric value is
in range, the per-case result's failure-reason list contains exactly
one formatted entry per failing required metric — formatted as
`"<metric> failed: <value to two decimals> < <threshold>"` rather than
the claimed `"<metric>: <value> < <threshold>"` — non-required failing
metrics append nothing, and the case passes iff the list is empty. -/
theorem pipeline_failure_reasons (adapter : String → Except PyErr RAGOutput)
    (metrics : List Metric) (tc : TestCase) (out : RAGOutput)
    (hout : adapter tc.question = .ok out)
    (hrange : ∀ m ∈ metrics, 0 ≤ m.compute tc out ∧ m.compute tc out ≤ 1) :
    ∃ r, evaluateTestCase adapter metrics tc = .ok r ∧
      r.failure_reasons = (metrics.filter fun m =>
          !(decide (m.threshold ≤ m.compute tc out)) && m.required).map
        (fun m => failureReason m.name (m.compute tc out) (some m.threshold)) ∧
      (r.passed = true ↔ r.failure_reasons = []) ∧
      r.metric_scores = metrics.map fun m =>
        (m.name, MetricScore.mk m.name (m.compute tc out)
          (decide (m.threshold ≤ m.compute tc out)) (some m.threshold)) := by
  refine ⟨⟨tc, out,
      metrics.map fun m => (m.name, MetricScore.mk m.name (m.compute tc out)
        (decide (m.threshold ≤ m.compute tc out)) (some m.threshold)),
      decide ((((metrics.filter fun m =>
          !(decide (m.threshold ≤ m.compute tc out)) && m.required).map
        fun m => failureReason m.name (m.compute tc out)
          (some m.threshold)).length = 0)),
      (metrics.filter fun m =>
          !(decide (m.threshold ≤ m.compute tc out)) && m.required).map
        fun m => failureReason m.name (m.compute tc out)
          (some m.threshold)⟩, ?_, rfl, ?_, rfl⟩
  · unfold evaluateTestCase
    rw [hout, except_bind_ok, evalMetrics_ok metrics tc out hrange,
      except_bind_ok]
  · simp [List.length_eq_zero]

/-- A required metric that always scores zero. -/
def metricAlwaysZero : Metric :=
  { name := "m", threshold := 7/10, required := true,
    compute := fun _ _ => 0 }

/-- An adapter that always succeeds with a fixed output. -/
def okAdapter : String → Except PyErr RAGOutput :=
  fun q => .ok { answer := "a", contexts := ["c"], question := q }

/-- A bare test case. -/
def tcPlain : TestCase := { question := "q" }

/-- C5 counterexample: a failing required metric appends the reason
`"m failed: 0.00 < 0.7"`, which contains the literal infix
`" failed: "` and therefore cannot be of the claimed shape
`"<metric>: <value> < <threshold>"` for any value/threshold rendering. -/
theorem pipeline_reason_format_cex :
    evaluateTestCase okAdapter [metricAlwaysZero] tcPlain = .ok
      { test_case := tcPlain,
        rag_output := { answer := "a", contexts := ["c"], question := "q" },
        metric_scores :=
          [("m", MetricScore.mk "m" 0 false (some (7/10)))],
        passed := false,
        failure_reasons := ["m failed: 0.00 < 0.7"] } ∧
    ¬ ∃ v t, ("m failed: 0.00 < 0.7" : String) =
      "m" ++ ": " ++ v ++ " < " ++ t := by
  constructor
  · with_unfolding_all rfl
  · rintro ⟨v, t, h⟩
    have hd : ("m failed: 0.00 < 0.7" : String).data.get? 1 =
        ("m" ++ ": " ++ v ++ " < " ++ t).data.get? 1 := by rw [h]
    have e1 : ("m failed: 0.00 < 0.7" : String).data.get? 1 = some ' ' :=
      rfl
    have e2 : ("m" ++ ": " ++ v ++ " < " ++ t).data.get? 1 = some ':' :=
      rfl
    rw [e1, e2] at hd
    simp at hd

/-- C5 witness: the amended failure-reason characterisation at a
concrete failing required metric. -/
theorem pipeline_failure_reasons_witness :
    ∃ r, evaluateTestCase okAdapter [metricAlwaysZero] tcPlain = .ok r ∧
      r.failure_reasons = ([metricAlwaysZero].filter fun m =>
          !(decide (m.threshold ≤ m.compute tcPlain
            { answer := "a", contexts := ["c"], question := "q" })) &&
          m.required).map
        (fun m => failureReason m.name (m.compute tcPlain
          { answer := "a", contexts := ["c"], question := "q" })
          (some m.threshold)) ∧
      (r.passed = true ↔ r.failure_reasons = []) ∧
      r.metric_scores = [metricAlwaysZero].map fun m =>
        (m.name, MetricScore.mk m.name (m.compute tcPlain
            { answer := "a", contexts := ["c"], question := "q" })
          (decide (m.threshold ≤ m.compute tcPlain
            { answer := "a", contexts := ["c"], question := "q" }))
          (some m.threshold)) :=
  pipeline_failure_reasons okAdapter [metricAlwaysZero] tcPlain
    { answer := "a", contexts := ["c"], question := "q" } rfl
    (by
      intro m hm
      rw [List.mem_singleton] at hm
      subst hm
      exact ⟨le_refl 0, zero_le_one⟩)

/-! ## Claim C2: exceptions during dataset evaluation -/

/-- An adapter whose every call raises. -/
def errAdapter : String → Except PyErr RAGOutput :=
  fun _ => .error (.integrationError (.unexpected "boom"))

/-- C2: `evaluate_dataset` never fails on a non-empty dataset: every
per-case exception is caught and the case silently dropped, the result
list is the filtered list of successful evaluations, and the overall
flag is the conjunction over surviving results.  In particular, when
every case raises, the run returns an empty result list, an empty
summary, and `passed = true`. -/
theorem pipeline_drops_raising_cases
    (adapter : String → Except PyErr RAGOutput) (metrics : List Metric)
    (test_cases : List TestCase) (hne : test_cases ≠ []) :
    (∃ r, evaluateDataset adapter metrics test_cases = .ok r ∧
      r.test_case_results = test_cases.filterMap
        (fun tc => (evaluateTestCase adapter metrics tc).toOption) ∧
      r.passed = r.test_case_results.all (·.passed) ∧
      r.summary = calculateSummary metrics r.test_case_results) ∧
    ((∀ tc ∈ test_cases, ∃ e,
        evaluateTestCase adapter metrics tc = .error e) →
      evaluateDataset adapter metrics test_cases =
        .ok { test_case_results := [], passed := true, summary := [] }) := by
  have hempty : test_cases.isEmpty = false := by
    simpa [List.isEmpty_iff] using hne
  constructor
  · set rs := test_cases.filterMap
      (fun tc => (evaluateTestCase adapter metrics tc).toOption) with hrs
    refine ⟨{ test_case_results := rs, passed := rs.all (·.passed),
              summary := calculateSummary metrics rs }, ?_, rfl, rfl, rfl⟩
    unfold evaluateDataset
    rw [hempty]
    simp only [Bool.false_eq_true, if_false]
  · intro hall
    have hnil : test_cases.filterMap
        (fun tc => (evaluateTestCase adapter metrics tc).toOption) = [] := by
      rw [List.filterMap_eq_nil_iff]
      intro tc htc
      obtain ⟨e, he⟩ := hall tc htc
      rw [he]
      rfl
    unfold evaluateDataset
    rw [hempty]
    simp only [Bool.false_eq_true, if_false, hnil]
    rfl

/-- C2 witness: a singleton dataset whose only case raises yields the
empty result list, `passed = true`, and an empty summary. -/
theorem pipeline_drops_raising_cases_witness :
    evaluateDataset errAdapter [] [tcPlain] =
      .ok { test_case_results := [], passed := true, summary := [] } :=
  (pipeline_drops_raising_cases errAdapter [] [tcPlain]
      (by simp)).2
    (fun tc htc => ⟨.integrationError (.unexpected "boom"), by
      rw [List.mem_singleton] at htc
      subst htc
      rfl⟩)

/-! ## Claims C6 and C7: the retry loop and endpoint fallback -/

/-- Running the loop body over the remaining attempt indices when every
remaining attempt fails with a transport error: all attempts are made,
a backoff sleep of `2 ^ attempt` follows every non-final attempt, and
the loop ends holding the last attempt's error. -/
lemma retryGo_all_err {α : Type} (func : Nat → CallResult α)
    (maxRetries : Nat) (e : Nat → TransportErr) :
    ∀ (k a : Nat) (last : Option TransportErr), a + k = maxRetries →
      1 ≤ k →
      (∀ i, i < k → func (a + i) = .err (e (a + i))) →
      retryGo func maxRetries (List.range' a k) last =
        ⟨k, (List.range' a (k - 1)).map (2 ^ ·),
         .exhausted (some (e (maxRetries - 1)))⟩ := by
  intro k
  induction k with
  | zero => intro a last _ h2 _; omega
  | succ n ih =>
      intro a last hsum _ hfail
      rw [List.range'_succ]
      unfold retryGo
      rw [show func a = .err (e a) from by simpa using hfail 0 (by omega)]
      cases n with
      | zero =>
          have hnlt : ¬(a < maxRetries - 1) := by omega
          have ha : a = maxRetries - 1 := by omega
          simp [retryGo, hnlt, ha]
      | succ m =>
          have hlt : a < maxRetries - 1 := by omega
          have hrec := ih (a + 1) (some (e a)) (by omega) (by omega)
            (fun i hi => by
              have h := hfail (i + 1) (by omega)
              rw [show a + (i + 1) = a + 1 + i from by omega] at h
              exact h)
          dsimp only
          rw [hrec]
          simp only [hlt, if_true]
          rw [show List.range' a (m + 1 + 1 - 1) =
              a :: List.range' (a + 1) (m + 1 - 1) from by
            rw [Nat.add_sub_cancel, List.range'_succ, Nat.add_sub_cancel]]
          simp

/-- Running the loop body when the first `n` remaining attempts fail
with transport errors and attempt `a + n` completes (successfully or
with an HTTP status error): exactly `n + 1` calls are made, with a
backoff sleep after each of the `n` failures, and the loop ends with
the completing call's outcome (a status error propagates out of the
loop at once, with no further attempt). -/
lemma retryGo_stop {α : Type} (func : Nat → CallResult α)
    (maxRetries : Nat) (e : Nat → TransportErr) :
    ∀ (n a k : Nat) (last : Option TransportErr), a + k = maxRetries →
      n < k →
      (∀ i, i < n → func (a + i) = .err (e (a + i))) →
      (∀ er, func (a + n) ≠ .err er) →
      retryGo func maxRetries (List.range' a k) last =
        ⟨n + 1, (List.range' a n).map (2 ^ ·),
         match func (a + n) with
         | .ok v => .ok v
         | .status code => .statusErr code
         | .err er => .exhausted (some er)⟩ := by
  intro n
  induction n with
  | zero =>
      intro a k last hsum hnk _ hstop
      obtain ⟨k', rfl⟩ : ∃ k', k = k' + 1 := ⟨k - 1, by omega⟩
      rw [List.range'_succ]
      unfold retryGo
      rcases hfa : func a with v | er | code
      · simp [hfa]
      · exact absurd (by simpa using hfa) (by simpa using hstop er)
      · simp [hfa]
  | succ n ih =>
      intro a k last hsum hnk hfail hstop
      obtain ⟨k', rfl⟩ : ∃ k', k = k' + 1 := ⟨k - 1, by omega⟩
      rw [List.range'_succ]
      unfold retryGo
      rw [show func a = .err (e a) from by simpa using hfail 0 (by omega)]
      have hlt : a < maxRetries - 1 := by omega
      have hrec := ih (a + 1) k' (some (e a)) (by omega) (by omega)
        (fun i hi => by
          have h := hfail (i + 1) (by omega)
          rw [show a + (i + 1) = a + 1 + i from by omega] at h
          exact h)
        (fun er => by
          have h := hstop er
          rw [show a + (n + 1) = a + 1 + n from by omega] at h
          exact h)
      dsimp only
      rw [hrec]
      simp only [hlt, if_true]
      rw [show a + (n + 1) = a + 1 + n from by omega, List.range'_succ]
      simp

/-- C6: if the transport fails with retryable errors on the first `N`
attempts (`N < max_retries`) and then succeeds, `_retry_request`
returns the success after exactly `N + 1` attempts, sleeping
`2 ^ attempt` seconds after each failed attempt (1s, 2s, 4s, ...); if
every attempt fails, exactly `max_retries` attempts are made, the loop
sleeps after each non-final attempt, and it ends by raising an
`IntegrationError` wrapping the last transport error — as surfaced,
for example, by the `/retrieve` call. -/
theorem retry_request_backoff {α : Type} (func : Nat → CallResult α)
    (retrieveF : Nat → CallResult (List String)) (maxRetries N : Nat)
    (e : Nat → TransportErr) (v : α) :
    (N < maxRetries → (∀ i, i < N → func i = .err (e i)) →
      func N = .ok v →
      retryRequest func maxRetries =
        ⟨N + 1, (List.range N).map (2 ^ ·), .ok v⟩) ∧
    (1 ≤ maxRetries → (∀ i, i < maxRetries → func i = .err (e i)) →
      retryRequest func maxRetries =
        ⟨maxRetries, (List.range (maxRetries - 1)).map (2 ^ ·),
         .exhausted (some (e (maxRetries - 1)))⟩) ∧
    (1 ≤ maxRetries →
      (∀ i, i < maxRetries → retrieveF i = .err (e i)) →
      retrieveHTTP maxRetries retrieveF = .error (.integrationError
        (.retriesExhausted maxRetries (some (e (maxRetries - 1)))))) := by
  have hall : ∀ (g : Nat → CallResult (List String)), 1 ≤ maxRetries →
      (∀ i, i < maxRetries → g i = .err (e i)) →
      retryRequest g maxRetries =
        ⟨maxRetries, (List.range (maxRetries - 1)).map (2 ^ ·),
         .exhausted (some (e (maxRetries - 1)))⟩ := by
    intro g h1 hfail
    unfold retryRequest
    simp only [List.range_eq_range']
    exact retryGo_all_err g maxRetries e maxRetries 0 none (by omega) h1
      (fun i hi => by simpa using hfail i hi)
  refine ⟨fun hN hfail hok => ?_, fun h1 hfail => ?_, fun h1 hfail => ?_⟩
  · unfold retryRequest
    simp only [List.range_eq_range']
    rw [retryGo_stop func maxRetries e N 0 maxRetries
      none (by omega) hN (fun i hi => by simpa using hfail i hi)
      (fun er => by
        rw [show (0 : Nat) + N = N from by omega, hok]
        simp)]
    rw [show (0 : Nat) + N = N from by omega, hok]
  · unfold retryRequest
    simp only [List.range_eq_range']
    exact retryGo_all_err func maxRetries e maxRetries 0 none (by omega) h1
      (fun i hi => by simpa using hfail i hi)
  · unfold retrieveHTTP
    rw [hall retrieveF h1 hfail]

/-- C7: an HTTP status error raised by a completed request propagates
out of the retry loop immediately (after the attempt that produced it,
with no retry and no further sleep); when the combined `/rag` call
completes with status 404, `execute` falls back to the two-call
retrieve-then-generate composition (wrapping any fallback
`IntegrationError`); any other status code from `/rag` raises an
`IntegrationError` without touching the fallback endpoints. -/
theorem execute_status_fallback (maxRetries : Nat)
    (ragF : Nat → CallResult RagResponse)
    (retrieveF : Nat → CallResult (List String))
    (generateF : Nat → CallResult String) (query : String)
    (e : Nat → TransportErr) (k code : Nat) :
    (k < maxRetries → (∀ i, i < k → ragF i = .err (e i)) →
      ragF k = .status code →
      retryRequest ragF maxRetries =
        ⟨k + 1, (List.range k).map (2 ^ ·), .statusErr code⟩) ∧
    (1 ≤ maxRetries → ragF 0 = .status 404 →
      executeHTTP maxRetries ragF retrieveF generateF query =
        (match baseExecuteHTTP maxRetries retrieveF generateF query with
         | .ok o => .ok o
         | .error (.integrationError info) =>
             .error (.integrationError (.bothFailed 404 info))
         | .error err => .error err)) ∧
    (1 ≤ maxRetries → ragF 0 = .status code → code ≠ 404 →
      executeHTTP maxRetries ragF retrieveF generateF query =
        .error (.integrationError (.httpStatus "/rag" code))) := by
  have hstatus : ∀ c, ragF 0 = .status c → 1 ≤ maxRetries →
      retryRequest ragF maxRetries = ⟨1, [], .statusErr c⟩ := by
    intro c h0 h1
    unfold retryRequest
    simp only [List.range_eq_range']
    rw [retryGo_stop ragF maxRetries e 0 0 maxRetries
      none (by omega) (by omega) (fun i hi => by omega)
      (fun er => by simp [h0])]
    simp [h0]
  refine ⟨fun hk hfail hstop => ?_, fun h1 h404 => ?_, fun h1 hc hne => ?_⟩
  · unfold retryRequest
    simp only [List.range_eq_range']
    rw [retryGo_stop ragF maxRetries e k 0 maxRetries
      none (by omega) hk (fun i hi => by simpa using hfail i hi)
      (fun er => by
        rw [show (0 : Nat) + k = k from by omega, hstop]
        simp)]
    rw [show (0 : Nat) + k = k from by omega, hstop]
  · unfold executeHTTP
    rw [hstatus 404 h404 h1]
    dsimp only
    rw [if_pos rfl]
  · unfold executeHTTP
    rw [hstatus code hc h1]
    dsimp only
    rw [if_neg hne]

/-- A transport failing on the first two attempts, then succeeding. -/
def failTwiceF : Nat → CallResult (List String) :=
  fun i => if i < 2 then .err (.connect i) else .ok ["ctx"]

/-- A transport failing on every attempt. -/
def alwaysFailF : Nat → CallResult (List String) :=
  fun i => .err (.timeout i)

/-- C6 witness: with `max_retries = 3`, two failures then a success
give 3 attempts with sleeps 1s and 2s; an always-failing transport
gives exactly 3 attempts and an `IntegrationError` wrapping the third
attempt's timeout. -/
theorem retry_request_backoff_witness :
    retryRequest failTwiceF 3 =
      ⟨2 + 1, (List.range 2).map (2 ^ ·), .ok ["ctx"]⟩ ∧
    retryRequest alwaysFailF 3 =
      ⟨3, (List.range (3 - 1)).map (2 ^ ·),
       .exhausted (some (.timeout (3 - 1)))⟩ ∧
    retrieveHTTP 3 alwaysFailF = .error (.integrationError
      (.retriesExhausted 3 (some (.timeout (3 - 1))))) :=
  ⟨(retry_request_backoff failTwiceF alwaysFailF 3 2
        (fun i => .connect i) ["ctx"]).1
      (by omega) (fun i hi => by interval_cases i <;> rfl) rfl,
   (retry_request_backoff alwaysFailF alwaysFailF 3 2
        (fun i => .timeout i) ["ctx"]).2.1
      (by omega) (fun i _ => rfl),
   (retry_request_backoff alwaysFailF alwaysFailF 3 2
        (fun i => .timeout i) ["ctx"]).2.2
      (by omega) (fun i _ => rfl)⟩

/-- A combined endpoint answering 404 on every attempt. -/
def rag404F : Nat → CallResult RagResponse := fun _ => .status 404

/-- A combined endpoint answering 500 on every attempt. -/
def rag500F : Nat → CallResult RagResponse := fun _ => .status 500

/-- A retrieval endpoint succeeding immediately. -/
def retOkF : Nat → CallResult (List String) := fun _ => .ok ["ctx"]

/-- A generation endpoint succeeding immediately. -/
def genOkF : Nat → CallResult String := fun _ => .ok "ans"

/-- C7 witness: a 404 from `/rag` stops the retry loop after one
attempt and routes `execute` through the two-call fallback, while a
500 raises an `IntegrationError` without fallback. -/
theorem execute_status_fallback_witness :
    retryRequest rag404F 3 =
      ⟨0 + 1, (List.range 0).map (2 ^ ·), .statusErr 404⟩ ∧
    executeHTTP 3 rag404F retOkF genOkF "q" =
      (match baseExecuteHTTP 3 retOkF genOkF "q" with
       | .ok o => .ok o
       | .error (.integrationError info) =>
           .error (.integrationError (.bothFailed 404 info))
       | .error err => .error err) ∧
    executeHTTP 3 rag500F retOkF genOkF "q" =
      .error (.integrationError (.httpStatus "/rag" 500)) :=
  ⟨(execute_status_fallback 3 rag404F retOkF genOkF "q"
        (fun i => .timeout i) 0 404).1
      (by omega) (fun i hi => absurd hi (by omega)) rfl,
   (execute_status_fallback 3 rag404F retOkF genOkF "q"
        (fun i => .timeout i) 0 404).2.1
      (by omega) rfl,
   (execute_status_fallback 3 rag500F retOkF genOkF "q"
        (fun i => .timeout i) 0 500).2.2
      (by omega) rfl (by omega)⟩

end RagGuardian
